import Mathlib

/-!
Verification development for the automeister macro engine
(`src/automeister/macro/context.py`, `parser.py`, `executor.py`).

The Python sources are shallowly embedded:

* Python values flowing through macros (YAML scalars, lists, mappings,
  `None`) are the inductive `PyValue`.  Python `dict`s whose keys occur in
  macros are string-keyed, so dictionaries are modelled as association
  lists `PyDict` with string keys; a non-string value used where a name is
  expected is keyed by its `str()` form (`varName`), a corner no macro in
  the repository exercises.
* Python exceptions are the inductive `PyErr`; `PyErr.toStr` is `str(e)`,
  mirroring the message formatting done in the `__init__` of
  `MacroExecutionError` and `MacroParseError`.
* The jinja2 template engine is an external library; it is modelled as an
  explicit parameter `JinjaEngine`: a function from the template string and
  the merged variable mapping to either a rendered string, a
  `TemplateSyntaxError`, an `UndefinedError`, or any other raised
  exception (jinja evaluates arbitrary expressions, so e.g. a
  `ZeroDivisionError` from `{1/0}`-style expressions, or a `TypeError`
  from a filter, can escape `Template.render`).  Concrete engines used in
  witnesses record the documented behaviour of jinja2 on the specific
  template strings involved.
* Mutation of a `MacroContext` is state passing: `set` returns the updated
  context and the interpreter threads contexts through.  For the `copy()`
  independence claim a small store (heap) of contexts makes the
  original/copy distinction explicit.
* The interpreter (`executor.py`) is embedded with a fuel parameter that
  bounds the depth of nested action execution; `ExecRes.fuelOut` is the
  artificial out-of-fuel outcome, distinct from every program outcome.
  The `while` loop's own iteration is bounded by its `max_iterations`
  ceiling and needs no fuel.
* The screen/input/clipboard/shell primitives are outside the core per the
  spec; dispatching one of their registered names is the opaque outcome
  `ExecRes.external`.  All flow-control handlers and the variable/message
  handlers (`set-var`, `fail`, `log`, `return`, `call`) are fully embedded.
-/

namespace Automeister

/-! ## Python values -/

/-- Python values occurring in macro data: `None`, booleans, ints, floats
(modelled as rationals; no claim depends on IEEE rounding), strings, lists
and string-keyed mappings. -/
inductive PyValue where
  | none
  | bool (b : Bool)
  | int (n : Int)
  | float (q : Rat)
  | str (s : String)
  | list (xs : List PyValue)
  | dict (xs : List (String × PyValue))

/-- Python dictionaries with string keys, insertion-ordered. -/
abbrev PyDict := List (String × PyValue)

/-- Python `d[k]` / `d.get(k)`: first binding of the key (dictionaries built
by the embedded code keep keys unique, mirroring real `dict`s). -/
def dictGet : PyDict → String → Option PyValue
  | [], _ => Option.none
  | kv :: rest, k => if kv.1 == k then some kv.2 else dictGet rest k

/-- Python `k in d`. -/
def dictHas (d : PyDict) (k : String) : Bool := (dictGet d k).isSome

/-- Python `d[k] = v`: replaces the value at an existing key in place (the
key keeps its insertion position), otherwise appends the new binding. -/
def dictSet : PyDict → String → PyValue → PyDict
  | [], k, v => [(k, v)]
  | kv :: rest, k, v => if kv.1 == k then (k, v) :: rest else kv :: dictSet rest k v

/-- Python `d.update(e)`: every binding of `e` written into `d` in order. -/
def dictUpdate (d e : PyDict) : PyDict :=
  e.foldl (fun acc kv => dictSet acc kv.1 kv.2) d

/-- Python `d.pop(k, default)`'s removal effect: the dictionary without the
key. -/
def dictRemove (d : PyDict) (k : String) : PyDict :=
  d.filter (fun kv => !(kv.1 == k))

/-! ## Python exceptions -/

/-- The exceptions raised or caught by the embedded sources:
`ValueError`, `MacroExecutionError` (executor.py, carrying the action
index/name used to format its message), `MacroParseError` (parser.py,
carrying the file path), the two loop-control signals `LoopBreak` and
`LoopContinue`, and any other exception class (name plus message). -/
inductive PyErr where
  | valueError (msg : String)
  | macroExecutionError (msg : String) (actionIndex : Option Nat) (actionName : Option String)
  | macroParseError (msg : String) (filePath : Option String)
  | loopBreak
  | loopContinue
  | otherError (excName : String) (msg : String)

/-- Python `str(e)`: for the two project exception classes this reproduces
the location-suffixed message built in their `__init__`. -/
def PyErr.toStr : PyErr → String
  | .valueError m => m
  | .macroExecutionError m i n =>
    m ++ (match i with | some k => " at action " ++ toString k | Option.none => "")
      ++ (match n with | some s => " (" ++ s ++ ")" | Option.none => "")
  | .macroParseError m fp =>
    m ++ (match fp with | some p => " in " ++ p | Option.none => "")
  | .loopBreak => ""
  | .loopContinue => ""
  | .otherError _ m => m

/-! ## Python builtin behaviour used by the sources

These model the Python builtins (`str`, `int`, `float`, truthiness,
`str.split`, `str.strip`, `str.lower`) that the embedded code calls.  They
are implemented over `List Char` so concrete runs reduce definitionally. -/

/-- Python truthiness (`bool(v)` / `if v:`). -/
def pyTruthy : PyValue → Bool
  | .none => false
  | .bool b => b
  | .int n => !(n == 0)
  | .float q => decide (q ≠ 0)
  | .str s => !(s == "")
  | .list xs => !xs.isEmpty
  | .dict xs => !xs.isEmpty

mutual
/-- Python `repr(v)`, used for elements inside list/dict display. -/
def pyRepr : PyValue → String
  | .none => "None"
  | .bool true => "True"
  | .bool false => "False"
  | .int n => toString n
  | .float q => toString q
  | .str s => "'" ++ s ++ "'"
  | .list xs => "[" ++ pyReprJoin xs ++ "]"
  | .dict xs => "\x7b" ++ pyReprPairs xs ++ "\x7d"
/-- Comma-joined `repr`s of list elements. -/
def pyReprJoin : List PyValue → String
  | [] => ""
  | [x] => pyRepr x
  | x :: rest => pyRepr x ++ ", " ++ pyReprJoin rest
/-- Comma-joined `repr`ed key/value pairs of a mapping. -/
def pyReprPairs : List (String × PyValue) → String
  | [] => ""
  | [kv] => "'" ++ kv.1 ++ "': " ++ pyRepr kv.2
  | kv :: rest => "'" ++ kv.1 ++ "': " ++ pyRepr kv.2 ++ ", " ++ pyReprPairs rest
end

/-- Python `str(v)` (and `f"{v}"`): like `repr` except that a top-level
string passes through unquoted. -/
def pyStr : PyValue → String
  | .none => "None"
  | .bool true => "True"
  | .bool false => "False"
  | .int n => toString n
  | .float q => toString q
  | .str s => s
  | .list xs => "[" ++ pyReprJoin xs ++ "]"
  | .dict xs => "\x7b" ++ pyReprPairs xs ++ "\x7d"

/-- Python names are strings; a non-string value used as a variable name is
keyed by its `str()` form (see the module comment). -/
def varName : PyValue → String
  | .str s => s
  | v => pyStr v

/-- Whitespace recognised by Python's `str.strip()` (the common cases). -/
def isSpaceChar (c : Char) : Bool := c == ' ' || c == '\t' || c == '\n' || c == '\r'

/-- Drops leading whitespace characters. -/
def dropLeadingSpace : List Char → List Char
  | [] => []
  | c :: rest => if isSpaceChar c then dropLeadingSpace rest else c :: rest

/-- Python `s.strip()`. -/
def pyStrip (s : String) : String :=
  String.mk (dropLeadingSpace (dropLeadingSpace s.data.reverse).reverse)

/-- Splits a character list at a separator character. -/
def charSplit (sep : Char) : List Char → List Char → List (List Char)
  | [], acc => [acc.reverse]
  | c :: rest, acc =>
    if c == sep then acc.reverse :: charSplit sep rest []
    else charSplit sep rest (c :: acc)

/-- Python `s.split(",")`. -/
def pySplitComma (s : String) : List String :=
  (charSplit ',' s.data []).map (fun cs => String.mk cs)

/-- Prefix test on character lists. -/
def listIsPre : List Char → List Char → Bool
  | [], _ => true
  | _ :: _, [] => false
  | p :: ps, c :: cs => p == c && listIsPre ps cs

/-- Substring occurrence test on character lists. -/
def listHasSub (pat : List Char) : List Char → Bool
  | [] => pat.isEmpty
  | c :: cs => listIsPre pat (c :: cs) || listHasSub pat cs

/-- Python `pat in s` on strings. -/
def strContains (s pat : String) : Bool := listHasSub pat.data s.data

/-- Python `s.lower()`. -/
def pyLower (s : String) : String := String.mk (s.data.map Char.toLower)

/-- Value of a decimal digit character, if it is one. -/
def digitVal (c : Char) : Option Nat :=
  if c.isDigit then some (c.toNat - 48) else Option.none

/-- Reads a non-empty all-digit character list as a natural number. -/
def readDigits : List Char → Option Nat → Option Nat
  | [], acc => acc
  | c :: rest, acc =>
    match digitVal c with
    | some d => readDigits rest (some ((acc.getD 0) * 10 + d))
    | Option.none => Option.none

/-- Python `int(s)` on a string: optional surrounding whitespace, optional
sign, then decimal digits (underscore grouping is not modelled; no claim
depends on it). -/
def pyParseInt (s : String) : Option Int :=
  match (pyStrip s).data with
  | '-' :: rest => (readDigits rest Option.none).map (fun n => -(n : Int))
  | '+' :: rest => (readDigits rest Option.none).map (fun n => (n : Int))
  | rest => (readDigits rest Option.none).map (fun n => (n : Int))

/-- Python `int()` truncates toward zero. -/
def ratTrunc (q : Rat) : Int := if 0 ≤ q then q.floor else q.ceil

/-- Python `int(v)`: ints pass through, booleans map to 0/1, floats
truncate, strings parse (else `ValueError`), everything else is a
`TypeError`.  Both exception types are what `MacroParameter.validate`
catches. -/
def pyIntExc : PyValue → Except PyErr Int
  | .int n => .ok n
  | .bool b => .ok (if b then 1 else 0)
  | .float q => .ok (ratTrunc q)
  | .str s =>
    match pyParseInt s with
    | some n => .ok n
    | Option.none =>
      .error (.valueError ("invalid literal for int() with base 10: '" ++ s ++ "'"))
  | _ => .error (.otherError "TypeError" "int() argument is not a string or a number")

/-- Reads digit characters into (value, count), for float parsing. -/
def readDigitsCount : List Char → Nat → Nat → Option (Nat × Nat) → Option (Nat × Nat)
  | [], _, _, acc => acc
  | c :: rest, v, k, _ =>
    match digitVal c with
    | some d => readDigitsCount rest (v * 10 + d) (k + 1) (some (v * 10 + d, k + 1))
    | Option.none => Option.none

/-- Mantissa part of a Python float literal: digits with an optional single
decimal point, at least one digit overall. -/
def parseMantissa (cs : List Char) : Option Rat :=
  match charSplit '.' cs [] with
  | [intPart] =>
    (readDigitsCount intPart 0 0 Option.none).map (fun p => (p.1 : Rat))
  | [intPart, fracPart] =>
    match readDigitsCount intPart 0 0 Option.none, readDigitsCount fracPart 0 0 Option.none with
    | some p, some f => some ((p.1 : Rat) + (f.1 : Rat) / ((10 : Rat) ^ f.2))
    | some p, Option.none => if fracPart.isEmpty then some ((p.1 : Rat)) else Option.none
    | Option.none, some f =>
      if intPart.isEmpty then some ((f.1 : Rat) / ((10 : Rat) ^ f.2)) else Option.none
    | Option.none, Option.none => Option.none
  | _ => Option.none

/-- Python `float(s)` on a string: sign, mantissa, optional exponent
(`inf`/`nan` literals are not modelled; no claim depends on them). -/
def pyParseFloat (s : String) : Option Rat :=
  let core := fun (cs : List Char) =>
    match charSplit 'e' (cs.map Char.toLower) [] with
    | [m] => parseMantissa m
    | [m, e] =>
      match parseMantissa m,
          (match e with
            | '-' :: ds => (readDigitsCount ds 0 0 Option.none).map (fun (p : Nat × Nat) => (false, p.1))
            | '+' :: ds => (readDigitsCount ds 0 0 Option.none).map (fun (p : Nat × Nat) => (true, p.1))
            | ds => (readDigitsCount ds 0 0 Option.none).map (fun (p : Nat × Nat) => (true, p.1))) with
      | some mv, some ev =>
        some (if ev.1 then mv * (10 : Rat) ^ ev.2 else mv / (10 : Rat) ^ ev.2)
      | _, _ => Option.none
    | _ => Option.none
  match (pyStrip s).data with
  | '-' :: rest => (core rest).map (fun q => -q)
  | '+' :: rest => core rest
  | rest => core rest

/-- Python `float(v)`. -/
def pyFloatExc : PyValue → Except PyErr Rat
  | .float q => .ok q
  | .int n => .ok (n : Rat)
  | .bool b => .ok (if b then 1 else 0)
  | .str s =>
    match pyParseFloat s with
    | some q => .ok q
    | Option.none =>
      .error (.valueError ("could not convert string to float: '" ++ s ++ "'"))
  | _ => .error (.otherError "TypeError" "float() argument is not a string or a number")

/-! ## The jinja2 engine model and MacroContext (context.py) -/

/-- Outcome of `Template(template_str).render(**variables)` in jinja2: a
rendered string, a `TemplateSyntaxError`, an `UndefinedError`, or any
other exception escaping template evaluation (jinja runs arbitrary
expressions and filters, so e.g. `ZeroDivisionError` or `TypeError` can
escape `render`). -/
inductive JinjaResult where
  | ok (s : String)
  | syntaxError (msg : String)
  | undefinedError (msg : String)
  | raised (e : PyErr)

/-- The external jinja2 engine (the `Environment` every `MacroContext`
constructs, with the custom filters/globals registered in `__init__`),
abstracted as a function from the template string and the merged variable
mapping to the render outcome. -/
abbrev JinjaEngine := String → PyDict → JinjaResult

/-- MacroContext's three variable layers (`_params`, `_vars`,
`_runtime_vars`).  The jinja `Environment` the Python constructor also
builds is configuration-identical for every context and is passed
explicitly as a `JinjaEngine` instead. -/
structure MacroContext where
  params : PyDict := []
  vars : PyDict := []
  runtime_vars : PyDict := []

/-- MacroContext.__init__(params, vars): fresh runtime layer. -/
def MacroContext.init (params vars : PyDict) : MacroContext :=
  { params := params, vars := vars, runtime_vars := [] }

/-- MacroContext.variables: the merged mapping, built by updating an empty
dict with the default vars, then the params, then the runtime vars
(precedence: runtime > params > defaults). -/
def MacroContext.variables (c : MacroContext) : PyDict :=
  dictUpdate (dictUpdate (dictUpdate [] c.vars) c.params) c.runtime_vars

/-- MacroContext.get(name, default). -/
def MacroContext.get (c : MacroContext) (name : String) (default : PyValue) : PyValue :=
  (dictGet c.variables name).getD default

/-- MacroContext.set(name, value): writes the runtime layer. -/
def MacroContext.set (c : MacroContext) (name : String) (value : PyValue) : MacroContext :=
  { c with runtime_vars := dictSet c.runtime_vars name value }

/-- MacroContext.copy(): a new context built from `.copy()`s of the three
layer dicts. -/
def MacroContext.copy (c : MacroContext) : MacroContext :=
  { params := c.params, vars := c.vars, runtime_vars := c.runtime_vars }

/-- MacroContext.render(template_str): the fast path returns strings
without template markers unchanged; otherwise the jinja outcome is
translated exactly as the `try/except` does — `TemplateSyntaxError` and
`UndefinedError` become `ValueError`s with the corresponding prefix, any
other exception propagates as itself. -/
def render (eng : JinjaEngine) (c : MacroContext) (template_str : String) :
    Except PyErr String :=
  if !(strContains template_str "\x7b\x7b") then .ok template_str
  else
    match eng template_str c.variables with
    | .ok r => .ok r
    | .syntaxError m => .error (.valueError ("Template syntax error: " ++ m))
    | .undefinedError m => .error (.valueError ("Undefined variable: " ++ m))
    | .raised e => .error e

mutual
/-- MacroContext.render_value(value): strings render, dict values and list
elements render recursively, everything else passes through. -/
def render_value (eng : JinjaEngine) (c : MacroContext) : PyValue → Except PyErr PyValue
  | .str s =>
    match render eng c s with
    | .ok r => .ok (.str r)
    | .error e => .error e
  | .dict d =>
    match renderDictVals eng c d with
    | .ok d2 => .ok (.dict d2)
    | .error e => .error e
  | .list xs =>
    match renderListVals eng c xs with
    | .ok xs2 => .ok (.list xs2)
    | .error e => .error e
  | v => .ok v
/-- Renders every value of a mapping (keys untouched). -/
def renderDictVals (eng : JinjaEngine) (c : MacroContext) :
    List (String × PyValue) → Except PyErr (List (String × PyValue))
  | [] => .ok []
  | kv :: rest =>
    match render_value eng c kv.2 with
    | .ok v2 =>
      match renderDictVals eng c rest with
      | .ok rest2 => .ok ((kv.1, v2) :: rest2)
      | .error e => .error e
    | .error e => .error e
/-- Renders every element of a list. -/
def renderListVals (eng : JinjaEngine) (c : MacroContext) :
    List PyValue → Except PyErr (List PyValue)
  | [] => .ok []
  | x :: rest =>
    match render_value eng c x with
    | .ok x2 =>
      match renderListVals eng c rest with
      | .ok rest2 => .ok (x2 :: rest2)
      | .error e => .error e
    | .error e => .error e
end

/-- The implicit wrapping evaluate_condition applies before rendering: a
condition without template markers becomes `(( condition ))` (written here
with braces). -/
def wrapCondition (condition : String) : String :=
  if !(strContains condition "\x7b\x7b") then "\x7b\x7b " ++ condition ++ " \x7d\x7d"
  else condition

/-- MacroContext.evaluate_condition(condition): wraps, renders, then maps
the rendered string through the truthy/falsy table; a `ValueError` from
rendering is caught and yields `false`; any other exception propagates
(the `except ValueError` clause does not catch it). -/
def evaluate_condition (eng : JinjaEngine) (c : MacroContext) (condition : String) :
    Except PyErr Bool :=
  match render eng c (wrapCondition condition) with
  | .ok result =>
    if ["true", "yes", "1"].contains (pyLower result) then .ok true
    else if ["false", "no", "0", "none", ""].contains (pyLower result) then .ok false
    else .ok (!(result == ""))
  | .error (.valueError _) => .ok false
  | .error e => .error e

/-! ## Context store

Python contexts are heap objects; `copy()` builds a new object whose three
layer dicts are `.copy()`s of the original's.  To state independence of
original and copy, contexts live in a store indexed by allocation order,
and `set` mutates one cell. -/

/-- A heap of allocated contexts, indexed by position. -/
abbrev CtxStore := List MacroContext

/-- The context object at an index (a dangling index reads as an empty
context; theorems always bound the index). -/
def storeCtx (s : CtxStore) (i : Nat) : MacroContext := s.getD i {}

/-- Allocates `ctx.copy()` as a new object, returning the store and the
new object's index. -/
def store_copy (s : CtxStore) (i : Nat) : CtxStore × Nat :=
  (s ++ [(storeCtx s i).copy], s.length)

/-- In-place `ctx.set(name, value)` on the object at index `i`. -/
def store_set (s : CtxStore) (i : Nat) (name : String) (v : PyValue) : CtxStore :=
  s.set i ((storeCtx s i).set name v)

/-- `ctx.get(name)` (default `None`) on the object at index `i`. -/
def store_get (s : CtxStore) (i : Nat) (name : String) : PyValue :=
  (storeCtx s i).get name PyValue.none

/-! ## Script model (parser.py) -/

/-- MacroParameter: the declared fields.  `type` is stored as parsed from
the document — the dataclass's `Literal` annotation is not enforced at
runtime, so it is an arbitrary value compared textually by `validate`
(default `"string"`); `required` is likewise stored raw and used by its
truthiness (default `True`). -/
structure MacroParameter where
  name : String
  type : PyValue := .str "string"
  required : PyValue := .bool true
  default : PyValue := PyValue.none
  description : String := ""

/-- Python `v is None` for the stored default. -/
def PyValue.isNone : PyValue → Bool
  | .none => true
  | _ => false

/-- MacroParameter.validate(value): `None` falls back to the
required/default rule; otherwise the value is coerced according to the
declared type, with coercion failures replaced by the parameter-naming
`ValueError`s raised in each branch; an unrecognised declared type returns
the value unchanged (the trailing `else`). -/
def MacroParameter.validate (p : MacroParameter) (value : PyValue) : Except PyErr PyValue :=
  match value with
  | PyValue.none =>
    if pyTruthy p.required && p.default.isNone then
      .error (.valueError ("Required parameter '" ++ p.name ++ "' not provided"))
    else .ok p.default
  | v =>
    match p.type with
    | .str "string" => .ok (.str (pyStr v))
    | .str "integer" =>
      match pyIntExc v with
      | .ok n => .ok (.int n)
      | .error _ => .error (.valueError ("Parameter '" ++ p.name ++ "' must be an integer"))
    | .str "float" =>
      match pyFloatExc v with
      | .ok q => .ok (.float q)
      | .error _ => .error (.valueError ("Parameter '" ++ p.name ++ "' must be a float"))
    | .str "boolean" =>
      match v with
      | .bool b => .ok (.bool b)
      | .str s =>
        if ["true", "yes", "1", "on"].contains (pyLower s) then .ok (.bool true)
        else if ["false", "no", "0", "off"].contains (pyLower s) then .ok (.bool false)
        else .error (.valueError ("Parameter '" ++ p.name ++ "' must be a boolean"))
      | _ => .error (.valueError ("Parameter '" ++ p.name ++ "' must be a boolean"))
    | .str "list" =>
      match v with
      | .list xs => .ok (.list xs)
      | .str s => .ok (.list ((pySplitComma s).map (fun part => .str (pyStrip part))))
      | _ => .error (.valueError ("Parameter '" ++ p.name ++ "' must be a list"))
    | _ => .ok v

/-- MacroAction: one step; `action` holds the raw popped value, `args` the
remaining keys, `condition` the popped `if` value, `name` the popped
`name` value. -/
structure MacroAction where
  action : PyValue
  args : PyDict := []
  condition : Option PyValue := Option.none
  name : Option PyValue := Option.none

/-- MacroAction.from_dict(data, index): requires the `action` key, pops
`action`/`if`/`name`, and keeps every remaining key as an argument. -/
def MacroAction.from_dict (data : PyDict) (index : Nat) : Except PyErr MacroAction :=
  if !(dictHas data "action") then
    .error (.macroParseError
      ("Action at index " ++ toString index ++ " missing 'action' field") Option.none)
  else
    .ok { action := (dictGet data "action").getD PyValue.none
        , args := dictRemove (dictRemove (dictRemove data "action") "if") "name"
        , condition := dictGet data "if"
        , name := dictGet data "name" }

/-- Macro (the parsed script).  `Macro` itself cannot be a Lean name here,
so the structure is `MacroDef`. -/
structure MacroDef where
  name : String
  description : String := ""
  parameters : List MacroParameter := []
  vars : PyDict := []
  actions : List MacroAction := []
  file_path : Option String := Option.none

/-- The parameter-list parsing loop of Macro.from_dict: a bare string is a
default-typed required parameter; a mapping must carry `name`; any other
entry kind is skipped (the loop has no `else`). -/
def parseParameters (fp : Option String) : List PyValue → Except PyErr (List MacroParameter)
  | [] => .ok []
  | .str s :: rest =>
    match parseParameters fp rest with
    | .ok ps => .ok ({ name := s } :: ps)
    | .error e => .error e
  | .dict d :: rest =>
    if !(dictHas d "name") then
      .error (.macroParseError "Parameter missing 'name' field" fp)
    else
      match parseParameters fp rest with
      | .ok ps => .ok (
          { name := varName ((dictGet d "name").getD PyValue.none)
          , type := (dictGet d "type").getD (.str "string")
          , required := (dictGet d "required").getD (.bool true)
          , default := (dictGet d "default").getD PyValue.none
          , description := varName ((dictGet d "description").getD (.str "")) } :: ps)
      | .error e => .error e
  | _ :: rest => parseParameters fp rest

/-- The action-list parsing loop of Macro.from_dict: every entry must be a
mapping, and each mapping goes through MacroAction.from_dict with its
index. -/
def parseScriptActions (fp : Option String) : Nat → List PyValue → Except PyErr (List MacroAction)
  | _, [] => .ok []
  | i, .dict d :: rest =>
    match MacroAction.from_dict d i with
    | .ok a =>
      match parseScriptActions fp (i + 1) rest with
      | .ok rest2 => .ok (a :: rest2)
      | .error e => .error e
    | .error e => .error e
  | i, _ :: _ =>
    .error (.macroParseError ("Action at index " ++ toString i ++ " must be a dictionary") fp)

/-- Python list coercion of a `data.get(key, [])` value (non-list values
do not occur in well-formed documents and iterate as empty here). -/
def asList : PyValue → List PyValue
  | .list xs => xs
  | _ => []

/-- Python dict coercion of a `data.get(key, ())` value (same remark). -/
def asDict : PyValue → PyDict
  | .dict d => d
  | _ => []

/-- Macro.from_dict(data, file_path): requires `name`, parses parameters
then actions, and takes `description`/`vars` with their defaults. -/
def MacroDef.from_dict (data : PyDict) (fp : Option String) : Except PyErr MacroDef :=
  if !(dictHas data "name") then
    .error (.macroParseError "Macro missing 'name' field" fp)
  else
    match parseParameters fp (asList ((dictGet data "parameters").getD (.list []))) with
    | .error e => .error e
    | .ok ps =>
      match parseScriptActions fp 0 (asList ((dictGet data "actions").getD (.list []))) with
      | .error e => .error e
      | .ok acts =>
        .ok { name := varName ((dictGet data "name").getD PyValue.none)
            , description := varName ((dictGet data "description").getD (.str ""))
            , parameters := ps
            , vars := asDict ((dictGet data "vars").getD (.dict []))
            , actions := acts
            , file_path := fp }

/-- The loop of Macro.validate_params: every declared parameter is looked
up in the supplied mapping (missing reads as `None`) and validated;
results accumulate into the `validated` dict. -/
def validateParamsGo (params : PyDict) :
    List MacroParameter → PyDict → Except PyErr PyDict
  | [], validated => .ok validated
  | p :: rest, validated =>
    match p.validate ((dictGet params p.name).getD PyValue.none) with
    | .ok v => validateParamsGo params rest (dictSet validated p.name v)
    | .error e => .error e

/-- Macro.validate_params(params). -/
def MacroDef.validate_params (m : MacroDef) (params : PyDict) : Except PyErr PyDict :=
  validateParamsGo params m.parameters []

/-! ## Executor (executor.py) -/

/-- MacroExecutor: the verbose flag and the `_call_depth` counter threaded
through subroutine invocations. -/
structure MacroExecutor where
  verbose : Bool := false
  callDepth : Nat := 0

/-- MacroExecutor.MAX_CALL_DEPTH. -/
def MacroExecutor.MAX_CALL_DEPTH : Nat := 50

/-- MacroExecutor.create_child_executor(): same verbosity, depth plus
one. -/
def MacroExecutor.create_child_executor (e : MacroExecutor) : MacroExecutor :=
  { verbose := e.verbose, callDepth := e.callDepth + 1 }

/-- Outcome of running actions: the handler's return value, a raised
exception, the artificial out-of-fuel marker of the embedding, or the
opaque outcome of dispatching one of the out-of-scope I/O primitives. -/
inductive ExecRes where
  | ok (v : PyValue)
  | err (e : PyErr)
  | fuelOut
  | external (name : String)

/-- The macro directory consulted by `find_macro(name, directory)`: a map
from the requested name (and the raw `directory` argument) to the parsed
macro, if any. -/
abbrev MacroEnv := String → PyValue → Option MacroDef

/-- The action-name value attached to a raised MacroExecutionError: the
`__init__` only renders a truthy name into the message, so a falsy one is
dropped here at construction. -/
def nameForErr : Option PyValue → Option String
  | some v => if pyTruthy v then some (pyStr v) else Option.none
  | Option.none => Option.none

/-- The `try/except` around the handler call in `_execute_action`: loop
signals and already-built MacroExecutionErrors re-raise unchanged; any
other exception is wrapped into a MacroExecutionError carrying `str(e)`
and the action's position and name. -/
def wrapErr (i : Nat) (nm : Option PyValue) : ExecRes × MacroContext → ExecRes × MacroContext
  | (.err .loopBreak, c) => (.err .loopBreak, c)
  | (.err .loopContinue, c) => (.err .loopContinue, c)
  | (.err (.macroExecutionError m x y), c) => (.err (.macroExecutionError m x y), c)
  | (.err e, c) => (.err (.macroExecutionError (PyErr.toStr e) (some i) (nameForErr nm)), c)
  | other => other

/-- `evaluate_condition` applied to a raw condition value: only strings
are meaningful; Python raises a `TypeError` from the `in`/concatenation
operations for every non-string value that reaches them. -/
def evalConditionValue (eng : JinjaEngine) (c : MacroContext) : PyValue → Except PyErr Bool
  | .str s => evaluate_condition eng c s
  | _ => .error (.otherError "TypeError" "condition must be a string")

/-- The registered action names whose handlers are pure wrappers over
external OS facilities (mouse/keyboard/screen/clipboard/shell/notify);
the spec places them outside the core, and dispatching one is the opaque
`ExecRes.external`. -/
def isExternalAction (s : String) : Bool :=
  ["delay", "notify", "shell", "clipboard.get", "clipboard.set",
   "mouse.move", "mouse.click", "mouse.click-at", "mouse.drag",
   "mouse.scroll", "mouse.click-image", "keyboard.type", "keyboard.key",
   "keyboard.hotkey", "screen.capture", "screen.find", "screen.wait-for",
   "screen.exists"].contains s

/-- The reserved flow-control keys never rendered by `_render_args`. -/
def isReservedKey (k : String) : Bool :=
  k == "then" || k == "else" || k == "actions" || k == "catch" || k == "finally"

/-- MacroExecutor._render_args(args, context): every value rendered via
`render_value` except those under the reserved flow-control keys, which
pass through raw. -/
def _render_args (eng : JinjaEngine) (c : MacroContext) : PyDict → Except PyErr PyDict
  | [] => .ok []
  | kv :: rest =>
    match (if isReservedKey kv.1 then .ok kv.2 else render_value eng c kv.2) with
    | .ok v2 =>
      match _render_args eng c rest with
      | .ok rest2 => .ok ((kv.1, v2) :: rest2)
      | .error e => .error e
    | .error e => .error e

/-- The loop of MacroExecutor._parse_actions: `enumerate` indices advance
over every entry, mapping entries parse via MacroAction.from_dict (whose
parse error propagates), and every non-mapping entry is skipped. -/
def parseActionsGo : Nat → List PyValue → Except PyErr (List MacroAction)
  | _, [] => .ok []
  | i, .dict d :: rest =>
    match MacroAction.from_dict d i with
    | .ok a =>
      match parseActionsGo (i + 1) rest with
      | .ok rest2 => .ok (a :: rest2)
      | .error e => .error e
    | .error e => .error e
  | i, _ :: rest => parseActionsGo (i + 1) rest

/-- MacroExecutor._parse_actions(action_data). -/
def _parse_actions (ds : List PyValue) : Except PyErr (List MacroAction) :=
  parseActionsGo 0 ds

/-- Reads a reserved nested-action argument (`args.get(key, [])`).  Real
scripts always keep lists under these keys; see `asList`. -/
def getListArg (args : PyDict) (key : String) : List PyValue :=
  asList ((dictGet args key).getD (.list []))

/-! ### Simple handlers -/

/-- action_set_var: requires `name`, writes the runtime layer, returns
`None`. -/
def action_set_var (args : PyDict) (ctx : MacroContext) : ExecRes × MacroContext :=
  match (dictGet args "name").getD PyValue.none with
  | PyValue.none => (.err (.valueError "set-var requires 'name' argument"), ctx)
  | v => (.ok PyValue.none, ctx.set (varName v) ((dictGet args "value").getD PyValue.none))

/-- action_fail: raises a MacroExecutionError with the caller-supplied
message (default `"Macro execution failed"`). -/
def action_fail (args : PyDict) (ctx : MacroContext) : ExecRes × MacroContext :=
  (.err (.macroExecutionError
      (pyStr ((dictGet args "message").getD (.str "Macro execution failed")))
      Option.none Option.none), ctx)

/-- action_return: stores the value under `_return_value` and returns
it. -/
def action_return (args : PyDict) (ctx : MacroContext) : ExecRes × MacroContext :=
  ((.ok ((dictGet args "value").getD PyValue.none)),
    ctx.set "_return_value" ((dictGet args "value").getD PyValue.none))

/-! ### Loop drivers

Each flow-control handler receives the interpreter as `executor`; here the
handlers are parameterised by the corresponding callback (`runList` for
`executor.execute_actions`, `execM` for a child's `execute`), and the
recursive interpreter below ties the knot. -/

/-- The `while` loop of action_while: the condition re-evaluates before
every pass; a pass with `iteration ≥ max_iterations` raises the ceiling
error before running the body; the body's `LoopBreak` ends the loop,
`LoopContinue` moves to the next pass.  `remaining` is embedding fuel for
the loop; action_while supplies more than the ceiling ever allows, so
`fuelOut` is unreachable from it. -/
def whileLoop (evalC : MacroContext → Except PyErr Bool)
    (runBody : MacroContext → ExecRes × MacroContext) (maxIter : Int) :
    Nat → Int → MacroContext → ExecRes × MacroContext
  | 0, _, ctx => (.fuelOut, ctx)
  | r + 1, iteration, ctx =>
    match evalC ctx with
    | .error e => (.err e, ctx)
    | .ok false => (.ok PyValue.none, ctx)
    | .ok true =>
      if maxIter ≤ iteration then
        (.err (.macroExecutionError
          ("while loop exceeded max_iterations (" ++ toString maxIter ++ ")")
          Option.none Option.none), ctx)
      else
        match runBody ctx with
        | (.err .loopBreak, c) => (.ok PyValue.none, c)
        | (.err .loopContinue, c) => whileLoop evalC runBody maxIter r (iteration + 1) c
        | (.ok _, c) => whileLoop evalC runBody maxIter r (iteration + 1) c
        | (other, c) => (other, c)

/-- The `for i in range(count)` loop of action_repeat. -/
def repeatLoop (runBody : MacroContext → ExecRes × MacroContext) (loopVar : String) :
    List Nat → MacroContext → ExecRes × MacroContext
  | [], ctx => (.ok PyValue.none, ctx)
  | i :: rest, ctx =>
    match runBody (ctx.set loopVar (.int (i : Int))) with
    | (.err .loopBreak, c) => (.ok PyValue.none, c)
    | (.err .loopContinue, c) => repeatLoop runBody loopVar rest c
    | (.ok _, c) => repeatLoop runBody loopVar rest c
    | (other, c) => (other, c)

/-- The `for i, item in enumerate(items)` loop of action_foreach. -/
def foreachLoop (runBody : MacroContext → ExecRes × MacroContext)
    (loopVar : String) (idxVar : Option String) :
    Nat → List PyValue → MacroContext → ExecRes × MacroContext
  | _, [], ctx => (.ok PyValue.none, ctx)
  | i, item :: rest, ctx =>
    let c1 := ctx.set loopVar item
    let c2 := match idxVar with | some iv => c1.set iv (.int (i : Int)) | Option.none => c1
    match runBody c2 with
    | (.err .loopBreak, c) => (.ok PyValue.none, c)
    | (.err .loopContinue, c) => foreachLoop runBody loopVar idxVar (i + 1) rest c
    | (.ok _, c) => foreachLoop runBody loopVar idxVar (i + 1) rest c
    | (other, c) => (other, c)

/-! ### Flow-control handlers -/

/-- action_if: evaluates the condition, then runs the parsed `then` list
when true (if non-empty) or the parsed `else` list when false (if
non-empty), returning the branch's result or `None`. -/
def action_if (eng : JinjaEngine)
    (runList : List MacroAction → MacroContext → ExecRes × MacroContext)
    (args : PyDict) (ctx : MacroContext) : ExecRes × MacroContext :=
  match evalConditionValue eng ctx ((dictGet args "condition").getD (.str "")) with
  | .error e => (.err e, ctx)
  | .ok is_true =>
    if is_true then
      let then_actions := getListArg args "then"
      if !then_actions.isEmpty then
        match _parse_actions then_actions with
        | .ok parsed => runList parsed ctx
        | .error e => (.err e, ctx)
      else (.ok PyValue.none, ctx)
    else
      let else_actions := getListArg args "else"
      if !else_actions.isEmpty then
        match _parse_actions else_actions with
        | .ok parsed => runList parsed ctx
        | .error e => (.err e, ctx)
      else (.ok PyValue.none, ctx)

/-- action_repeat: a fixed `int(count)` of passes binding the loop
variable (`as`, default `"i"`) to the 0-based index. -/
def action_repeat (runList : List MacroAction → MacroContext → ExecRes × MacroContext)
    (args : PyDict) (ctx : MacroContext) : ExecRes × MacroContext :=
  match pyIntExc ((dictGet args "count").getD (.int 1)) with
  | .error e => (.err e, ctx)
  | .ok count =>
    let loop_var := varName ((dictGet args "as").getD (.str "i"))
    let actions_data := getListArg args "actions"
    if actions_data.isEmpty then (.ok PyValue.none, ctx)
    else
      match _parse_actions actions_data with
      | .error e => (.err e, ctx)
      | .ok parsed => repeatLoop (runList parsed) loop_var (List.range count.toNat) ctx

/-- action_while: re-evaluates `condition` before every pass and enforces
the `int(max_iterations)` ceiling (default 1000). -/
def action_while (eng : JinjaEngine)
    (runList : List MacroAction → MacroContext → ExecRes × MacroContext)
    (args : PyDict) (ctx : MacroContext) : ExecRes × MacroContext :=
  let condition := (dictGet args "condition").getD (.str "")
  let actions_data := getListArg args "actions"
  match pyIntExc ((dictGet args "max_iterations").getD (.int 1000)) with
  | .error e => (.err e, ctx)
  | .ok max_iterations =>
    if actions_data.isEmpty then (.ok PyValue.none, ctx)
    else
      match _parse_actions actions_data with
      | .error e => (.err e, ctx)
      | .ok parsed =>
        whileLoop (fun c => evalConditionValue eng c condition) (runList parsed)
          max_iterations (max_iterations.toNat + 1) 0 ctx

/-- action_foreach: iterates a list (a string splits on commas with each
element stripped; a mapping iterates its keys) binding the item variable
(`as`, default `"item"`) and, when `index_as` is truthy, the index
variable. -/
def action_foreach (runList : List MacroAction → MacroContext → ExecRes × MacroContext)
    (args : PyDict) (ctx : MacroContext) : ExecRes × MacroContext :=
  let items := (dictGet args "items").getD (.list [])
  let loop_var := varName ((dictGet args "as").getD (.str "item"))
  let idx_var : Option String :=
    match dictGet args "index_as" with
    | some v => if pyTruthy v then some (varName v) else Option.none
    | Option.none => Option.none
  let actions_data := getListArg args "actions"
  if actions_data.isEmpty || !(pyTruthy items) then (.ok PyValue.none, ctx)
  else
    let itemsRes : Except PyErr (List PyValue) :=
      match items with
      | .str s => .ok ((pySplitComma s).map (fun part => PyValue.str (pyStrip part)))
      | .list xs => .ok xs
      | .dict d => .ok (d.map (fun kv => PyValue.str kv.1))
      | _ => .error (.otherError "TypeError" "foreach items is not iterable")
    match itemsRes with
    | .error e => (.err e, ctx)
    | .ok itemsList =>
      match _parse_actions actions_data with
      | .error e => (.err e, ctx)
      | .ok parsed => foreachLoop (runList parsed) loop_var idx_var 0 itemsList ctx

/-- The `if finally_data:` epilogue of action_try: parse and run the
`finally` list (its result discarded by the caller), or do nothing. -/
def run_finally (runList : List MacroAction → MacroContext → ExecRes × MacroContext)
    (finally_data : List PyValue) (ctx : MacroContext) : ExecRes × MacroContext :=
  if !finally_data.isEmpty then
    match _parse_actions finally_data with
    | .error e => (.err e, ctx)
    | .ok parsed => runList parsed ctx
  else (.ok PyValue.none, ctx)

/-- action_try: runs the primary list inside `try` (parsing included);
loop signals re-raise immediately; any other exception binds `str(e)`
into the error variable (`error_as`, default `"error"`) and, when a catch
list was supplied, runs it inside the same `except` block.  The `finally`
code is straight-line code after the `try` statement, so it runs only
when control reaches it — not when a loop signal re-raised and not when
the catch list itself raised.  Afterwards, an error with no catch list
re-raises a MacroExecutionError built from the error variable's current
value. -/
def action_try (runList : List MacroAction → MacroContext → ExecRes × MacroContext)
    (args : PyDict) (ctx : MacroContext) : ExecRes × MacroContext :=
  let actions_data := getListArg args "actions"
  let catch_data := getListArg args "catch"
  let finally_data := getListArg args "finally"
  let error_var := varName ((dictGet args "error_as").getD (.str "error"))
  let primary : ExecRes × MacroContext :=
    if !actions_data.isEmpty then
      match _parse_actions actions_data with
      | .error e => (.err e, ctx)
      | .ok parsed => runList parsed ctx
    else (.ok PyValue.none, ctx)
  match primary with
  | (.err .loopBreak, c) => (.err .loopBreak, c)
  | (.err .loopContinue, c) => (.err .loopContinue, c)
  | (.fuelOut, c) => (.fuelOut, c)
  | (.external s, c) => (.external s, c)
  | (.ok r, c) =>
    match run_finally runList finally_data c with
    | (.ok _, c2) => (.ok r, c2)
    | (other, c2) => (other, c2)
  | (.err e, c) =>
    let c1 := c.set error_var (.str (PyErr.toStr e))
    if !catch_data.isEmpty then
      match _parse_actions catch_data with
      | .error pe => (.err pe, c1)
      | .ok catchParsed =>
        match runList catchParsed c1 with
        | (.ok rc, c2) =>
          match run_finally runList finally_data c2 with
          | (.ok _, c3) => (.ok rc, c3)
          | (other, c3) => (other, c3)
        | (other, c2) => (other, c2)
    else
      match run_finally runList finally_data c1 with
      | (.ok _, c2) =>
        (.err (.macroExecutionError
          (pyStr (c2.get error_var (.str "Unknown error"))) Option.none Option.none), c2)
      | (other, c2) => (other, c2)

/-- The depth check, parameter validation, fresh-context creation and
action traversal of MacroExecutor.execute, with the action traversal
abstracted as `runList`; `execute` returns `None` on success. -/
def execute_core (runList : List MacroAction → MacroContext → ExecRes × MacroContext)
    (ex : MacroExecutor) (m : MacroDef) (params : PyDict) : ExecRes :=
  if MacroExecutor.MAX_CALL_DEPTH ≤ ex.callDepth then
    .err (.macroExecutionError
      "Maximum call depth exceeded (possible infinite recursion)" Option.none Option.none)
  else
    match m.validate_params params with
    | .error e => .err e
    | .ok validated =>
      match runList m.actions (MacroContext.init validated m.vars) with
      | (.ok _, _) => .ok PyValue.none
      | (other, _) => other

/-- action_call: requires a truthy `macro` name, resolves it through
`find_macro` (the `MacroEnv`), creates the depth-incremented child
executor and executes the callee through `execM` with the supplied
`params` mapping; the caller's context is neither read nor written. -/
def action_call (execM : MacroExecutor → MacroDef → PyDict → ExecRes)
    (env : MacroEnv) (ex : MacroExecutor) (args : PyDict) (ctx : MacroContext) :
    ExecRes × MacroContext :=
  let macro_name := (dictGet args "macro").getD (.str "")
  let macro_dir := (dictGet args "directory").getD PyValue.none
  let call_params := (dictGet args "params").getD (.dict [])
  if !(pyTruthy macro_name) then
    (.err (.macroExecutionError "call action requires 'macro' argument"
      Option.none Option.none), ctx)
  else
    match macro_name with
    | .str nm =>
      match env nm macro_dir with
      | Option.none =>
        (.err (.macroExecutionError ("Macro not found: " ++ nm) Option.none Option.none), ctx)
      | some callee =>
        match call_params with
        | .dict ps =>
          match execM ex.create_child_executor callee ps with
          | .ok _ => (.ok PyValue.none, ctx)
          | other => (other, ctx)
        | _ => (.err (.otherError "AttributeError"
            "parameters for a subroutine call must be a mapping"), ctx)
    | _ => (.err (.otherError "TypeError" "macro name must be a string"), ctx)

/-! ### The recursive interpreter -/

/-- The `for i, action in enumerate(actions)` loop of
MacroExecutor.execute_actions: `result` starts as `None` and becomes each
action's result in turn; the last result returns. -/
def listRun (runOne : MacroAction → MacroContext → Nat → ExecRes × MacroContext) :
    List MacroAction → MacroContext → Nat → PyValue → ExecRes × MacroContext
  | [], ctx, _, acc => (.ok acc, ctx)
  | a :: rest, ctx, i, _ =>
    match runOne a ctx i with
    | (.ok r, c) => listRun runOne rest c (i + 1) r
    | other => other

/-- MacroExecutor._execute_action(action, context, index), with fuel
bounding the nesting depth of the embedding.  The condition gate runs
first (a falsy condition value skips the gate, a failing evaluation
propagates unwrapped, a false condition skips the action); argument
rendering follows (reserved keys raw, failures propagate unwrapped); then
the handler dispatch with the wrapping `try/except` of the source. -/
def _execute_action (eng : JinjaEngine) (env : MacroEnv) :
    Nat → MacroExecutor → MacroAction → MacroContext → Nat → ExecRes × MacroContext
  | 0, _, _, ctx, _ => (.fuelOut, ctx)
  | f + 1, ex, a, ctx, i =>
    match (match a.condition with
            | some cv => if pyTruthy cv then evalConditionValue eng ctx cv else .ok true
            | Option.none => (.ok true : Except PyErr Bool)) with
    | .error e => (.err e, ctx)
    | .ok false => (.ok PyValue.none, ctx)
    | .ok true =>
      match _render_args eng ctx a.args with
      | .error e => (.err e, ctx)
      | .ok rargs =>
        match a.action with
        | .str "set-var" => wrapErr i a.name (action_set_var rargs ctx)
        | .str "if" =>
          wrapErr i a.name (action_if eng
            (fun acts c => listRun (_execute_action eng env f ex) acts c 0 PyValue.none)
            rargs ctx)
        | .str "repeat" =>
          wrapErr i a.name (action_repeat
            (fun acts c => listRun (_execute_action eng env f ex) acts c 0 PyValue.none)
            rargs ctx)
        | .str "while" =>
          wrapErr i a.name (action_while eng
            (fun acts c => listRun (_execute_action eng env f ex) acts c 0 PyValue.none)
            rargs ctx)
        | .str "foreach" =>
          wrapErr i a.name (action_foreach
            (fun acts c => listRun (_execute_action eng env f ex) acts c 0 PyValue.none)
            rargs ctx)
        | .str "try" =>
          wrapErr i a.name (action_try
            (fun acts c => listRun (_execute_action eng env f ex) acts c 0 PyValue.none)
            rargs ctx)
        | .str "break" => wrapErr i a.name ((.err .loopBreak), ctx)
        | .str "continue" => wrapErr i a.name ((.err .loopContinue), ctx)
        | .str "fail" => wrapErr i a.name (action_fail rargs ctx)
        | .str "log" => wrapErr i a.name ((.ok PyValue.none), ctx)
        | .str "call" =>
          wrapErr i a.name (action_call
            (fun child callee ps => execute_core
              (fun acts c => listRun (_execute_action eng env f child) acts c 0 PyValue.none)
              child callee ps)
            env ex rargs ctx)
        | .str "return" => wrapErr i a.name (action_return rargs ctx)
        | .str other =>
          if isExternalAction other then (.external other, ctx)
          else (.err (.macroExecutionError ("Unknown action: " ++ other)
            (some i) (nameForErr a.name)), ctx)
        | v => (.err (.macroExecutionError ("Unknown action: " ++ pyStr v)
            (some i) (nameForErr a.name)), ctx)

/-- MacroExecutor.execute_actions(actions, context, start_index). -/
def execute_actions (eng : JinjaEngine) (env : MacroEnv) (fuel : Nat) (ex : MacroExecutor)
    (acts : List MacroAction) (ctx : MacroContext) (start_index : Nat) :
    ExecRes × MacroContext :=
  listRun (_execute_action eng env fuel ex) acts ctx start_index PyValue.none

/-- MacroExecutor.execute(macro, params). -/
def MacroExecutor.execute (eng : JinjaEngine) (env : MacroEnv) (fuel : Nat)
    (ex : MacroExecutor) (m : MacroDef) (params : PyDict) : ExecRes :=
  execute_core (fun acts c => execute_actions eng env fuel ex acts c 0) ex m params

/-! ## Spec-side vocabulary and concrete fixtures -/

/-- Python `isinstance(v, dict)`. -/
def PyValue.isMapping : PyValue → Bool
  | .dict _ => true
  | _ => false

/-- The kind test for "the returned value has the coerced declared
type". -/
def coercedTypeMatches : PyValue → PyValue → Bool
  | .str "string", .str _ => true
  | .str "integer", .int _ => true
  | .str "float", .float _ => true
  | .str "boolean", .bool _ => true
  | .str "list", .list _ => true
  | _, _ => false

/-- The wording validate's coercion errors use for each declared type. -/
def typeWordOf : PyValue → Option String
  | .str "integer" => some "an integer"
  | .str "float" => some "a float"
  | .str "boolean" => some "a boolean"
  | .str "list" => some "a list"
  | _ => Option.none

/-- A jinja engine recording the repository Environment's behaviour on the
template built from the condition `1/0`: evaluating the embedded division
raises `ZeroDivisionError`, which the `try/except` in `render` does not
catch (it is neither a `TemplateSyntaxError` nor an `UndefinedError`), and
which is not a `ValueError` either. -/
def engDivZero : JinjaEngine := fun s _ =>
  if s == "\x7b\x7b 1/0 \x7d\x7d" then .raised (.otherError "ZeroDivisionError" "division by zero")
  else .ok ""

/-- A jinja engine on which every template is malformed. -/
def engSyntax : JinjaEngine := fun _ _ => .syntaxError "unexpected end of template"

/-- A jinja engine rendering the constant-true condition template the way
jinja renders it, regardless of the variable mapping. -/
def engTrue : JinjaEngine := fun s _ =>
  if s == "\x7b\x7b true \x7d\x7d" then .ok "True" else .syntaxError "unexpected token"

/-- An empty macro directory. -/
def env0 : MacroEnv := fun _ _ => Option.none

/-- The self-recursive macro of end-to-end scenario E: `loop` is a single
`call` back into `loop`. -/
def loopM : MacroDef :=
  { name := "loop", actions := [{ action := .str "call", args := [("macro", .str "loop")] }] }

/-- The macro directory holding `loop`. -/
def envLoop : MacroEnv := fun nm _ => if nm == "loop" then some loopM else Option.none

/-- A nested `log` action entry (always succeeds, no context effect). -/
def logActionData : PyValue := .dict [("action", .str "log")]

/-- While-loop arguments: an always-true condition, a `log` body, ceiling
2. -/
def argsWhile2 : PyDict :=
  [("condition", .str "true"), ("actions", .list [logActionData]), ("max_iterations", .int 2)]

/-- A concrete nested-list runner: the real interpreter at fuel 5. -/
def runList5 : List MacroAction → MacroContext → ExecRes × MacroContext :=
  fun acts c => listRun (_execute_action engTrue env0 5 {}) acts c 0 PyValue.none

/-- Try arguments whose body and catch both `fail` and whose finally would
store 42 through a `return` action. -/
def argsTryCatchFails : PyDict :=
  [("actions", .list [.dict [("action", .str "fail"), ("message", .str "boom")]]),
   ("catch", .list [.dict [("action", .str "fail"), ("message", .str "catchboom")]]),
   ("finally", .list [.dict [("action", .str "return"), ("value", .int 42)]])]

/-- The same try arguments with a succeeding (`log`) catch list. -/
def argsTryCatchOk : PyDict :=
  [("actions", .list [.dict [("action", .str "fail"), ("message", .str "boom")]]),
   ("catch", .list [logActionData]),
   ("finally", .list [.dict [("action", .str "return"), ("value", .int 42)]])]

/-- Scenario-C try arguments: a failing body and a `log` catch list, no
finally. -/
def argsTryScenC : PyDict :=
  [("actions", .list [.dict [("action", .str "fail"), ("message", .str "boom")]]),
   ("catch", .list [logActionData])]

/-- An optional integer parameter with a non-integer default. -/
def intParamStrDefault : MacroParameter :=
  { name := "x", type := .str "integer", required := .bool false, default := .str "zzz" }

/-- A callee declaring exactly one string parameter `x`. -/
def calleeM : MacroDef := { name := "callee", parameters := [{ name := "x" }] }

end Automeister

namespace Automeister

set_option maxRecDepth 8000

/-! ## Helper lemmas -/

/-- Reading back the key just set. -/
theorem dictGet_dictSet_self (d : PyDict) (k : String) (v : PyValue) :
    dictGet (dictSet d k v) k = some v := by
  induction d with
  | nil => simp [dictSet, dictGet]
  | cons kv rest ih =>
    by_cases h : kv.1 == k
    · simp [dictSet, h, dictGet]
    · simp [dictSet, h, dictGet, ih]

/-- Setting one key leaves every other key's lookup unchanged. -/
theorem dictGet_dictSet_ne (d : PyDict) (k n : String) (v : PyValue) (h : ¬ n = k) :
    dictGet (dictSet d k v) n = dictGet d n := by
  have hkn : (k == n) = false := by
    simp only [beq_eq_false_iff_ne, ne_eq]
    exact fun e => h e.symm
  induction d with
  | nil => simp [dictSet, dictGet, hkn]
  | cons kv rest ih =>
    by_cases hk : kv.1 == k
    · have hkeq : kv.1 = k := by simpa [beq_iff_eq] using hk
      simp [dictSet, hk, dictGet, hkn, hkeq]
    · simp [dictSet, hk, dictGet, ih]

/-- Key membership after a dict write. -/
theorem dictHas_dictSet (d : PyDict) (k : String) (v : PyValue) (n : String) :
    dictHas (dictSet d k v) n = (n == k || dictHas d n) := by
  by_cases h : n = k
  · subst h
    simp [dictHas, dictGet_dictSet_self]
  · simp [dictHas, dictGet_dictSet_ne d k n v h, h]

/-! ## C7 — validate(None) -/

/-- C7: for every parameter declaration, `validate(None)` raises exactly
when `required` is truthy and no default is set, and otherwise returns the
declared default. -/
theorem validate_none_required_iff (p : MacroParameter) :
    ((∃ e, p.validate PyValue.none = .error e) ↔
      (pyTruthy p.required = true ∧ p.default.isNone = true)) ∧
    (pyTruthy p.required = false ∨ p.default.isNone = false →
      p.validate PyValue.none = .ok p.default) := by
  cases h1 : pyTruthy p.required <;> cases h2 : p.default.isNone <;>
    simp [MacroParameter.validate, h1, h2]

/-- C7 witness: an optional parameter with no default yields `None`. -/
theorem validate_none_required_iff_witness :
    ({ name := "user", required := .bool false } : MacroParameter).validate PyValue.none
      = .ok PyValue.none :=
  (validate_none_required_iff { name := "user", required := .bool false }).2 (Or.inl rfl)

/-! ## C8 — variable precedence and the set target -/

/-- C8: lookup resolves runtime over parameters over defaults — with
default `x=A`, parameter `x=B` and a runtime `set x C` the lookup returns
`C`; without the set, `B`; without the parameter, `A` — and `set` writes
only the runtime layer, leaving the parameter and default layers of any
context untouched. -/
theorem variable_precedence (x : String) (A B C : PyValue) :
    (((MacroContext.init [(x, B)] [(x, A)]).set x C).get x PyValue.none = C) ∧
    ((MacroContext.init [(x, B)] [(x, A)]).get x PyValue.none = B) ∧
    ((MacroContext.init [] [(x, A)]).get x PyValue.none = A) ∧
    (∀ (c : MacroContext) (n : String) (v : PyValue),
      (c.set n v).params = c.params ∧ (c.set n v).vars = c.vars) := by
  refine ⟨?_, ?_, ?_, ?_⟩
  · simp [MacroContext.init, MacroContext.set, MacroContext.get, MacroContext.variables,
      dictUpdate, dictSet, dictGet]
  · simp [MacroContext.init, MacroContext.get, MacroContext.variables,
      dictUpdate, dictSet, dictGet]
  · simp [MacroContext.init, MacroContext.get, MacroContext.variables,
      dictUpdate, dictSet, dictGet]
  · intro c n v
    exact ⟨rfl, rfl⟩

/-! ## C5 — copy independence -/

/-- The cell at an index below the original length survives a copy
allocation. -/
theorem storeCtx_append_lt (s : CtxStore) (c : MacroContext) (i : Nat) (h : i < s.length) :
    storeCtx (s ++ [c]) i = storeCtx s i := by
  simp [storeCtx, List.getD_eq_getElem?_getD, List.getElem?_append, h]

/-- The freshly allocated cell holds the copied context. -/
theorem storeCtx_append_len (s : CtxStore) (c : MacroContext) :
    storeCtx (s ++ [c]) s.length = c := by
  simp [storeCtx, List.getD_eq_getElem?_getD, List.getElem?_concat_length]

/-- Writing one cell leaves the others unchanged. -/
theorem storeCtx_set_ne (s : CtxStore) (i j : Nat) (c : MacroContext) (h : ¬ i = j) :
    storeCtx (s.set i c) j = storeCtx s j := by
  simp [storeCtx, List.getD_eq_getElem?_getD, List.getElem?_set_ne h]

/-- copy() yields a context equal (as a value) to the source; only its
identity in the store is new. -/
theorem copy_eq (c : MacroContext) : c.copy = c := rfl

/-- C5: after `copy()` the original and the copy are independent objects:
a runtime `set` on the copy changes no lookup on the original, a `set` on
the original changes no lookup on the copy, and right after the copy the
two agree on every name. -/
theorem copy_independence (s : CtxStore) (i : Nat) (n k : String) (v : PyValue)
    (h : i < s.length) :
    (store_get (store_set (store_copy s i).1 (store_copy s i).2 n v) i k = store_get s i k) ∧
    (store_get (store_set (store_copy s i).1 i n v) (store_copy s i).2 k
      = store_get (store_copy s i).1 (store_copy s i).2 k) ∧
    (store_get (store_copy s i).1 (store_copy s i).2 k = store_get s i k) := by
  have hne : ¬ (s.length = i) := by omega
  have hne2 : ¬ (i = s.length) := by omega
  refine ⟨?_, ?_, ?_⟩
  · unfold store_get store_set store_copy
    rw [storeCtx_set_ne _ _ _ _ hne, storeCtx_append_lt _ _ _ h]
  · unfold store_get store_set store_copy
    simp only
    rw [storeCtx_set_ne _ _ _ _ hne2]
  · unfold store_get store_copy
    simp only
    rw [storeCtx_append_len, copy_eq]

/-- C5 witness: a one-context store, setting `n` on the copy leaves `y` on
the original, and vice versa. -/
theorem copy_independence_witness :
    (store_get (store_set (store_copy [{ runtime_vars := [("y", .int 1)] }] 0).1
        (store_copy [{ runtime_vars := [("y", .int 1)] }] 0).2 "n" (.int 5)) 0 "y"
      = store_get [{ runtime_vars := [("y", .int 1)] }] 0 "y") ∧
    (store_get (store_set (store_copy [{ runtime_vars := [("y", .int 1)] }] 0).1 0 "n" (.int 5))
        (store_copy [{ runtime_vars := [("y", .int 1)] }] 0).2 "y"
      = store_get (store_copy [{ runtime_vars := [("y", .int 1)] }] 0).1
        (store_copy [{ runtime_vars := [("y", .int 1)] }] 0).2 "y") ∧
    (store_get (store_copy [{ runtime_vars := [("y", .int 1)] }] 0).1
        (store_copy [{ runtime_vars := [("y", .int 1)] }] 0).2 "y"
      = store_get [{ runtime_vars := [("y", .int 1)] }] 0 "y") :=
  copy_independence [{ runtime_vars := [("y", .int 1)] }] 0 "n" "y" (.int 5) (by decide)

/-! ## C10 — non-mapping action entries -/

/-- C10: a non-mapping entry in a nested action list is silently dropped
by the executor's `_parse_actions` loop (parsing continues with the rest,
the index still advancing past it), whereas the script-level action loop
of `Macro.from_dict` raises the index-naming parse error on the first
non-mapping entry; concretely, `_parse_actions` accepts a list whose
second entry is the number 5 while `Macro.from_dict` rejects the same
list. -/
theorem nested_nonmapping_dropped :
    (∀ (i : Nat) (x : PyValue) (rest : List PyValue), x.isMapping = false →
      parseActionsGo i (x :: rest) = parseActionsGo (i + 1) rest) ∧
    (∀ (i : Nat) (x : PyValue) (rest : List PyValue) (fp : Option String),
      x.isMapping = false →
      parseScriptActions fp i (x :: rest) = .error (.macroParseError
        ("Action at index " ++ toString i ++ " must be a dictionary") fp)) ∧
    (_parse_actions [logActionData, .int 5]
      = .ok [{ action := .str "log", args := [] }]) ∧
    (MacroDef.from_dict [("name", .str "m"), ("actions", .list [logActionData, .int 5])]
        Option.none
      = .error (.macroParseError "Action at index 1 must be a dictionary" Option.none)) := by
  refine ⟨?_, ?_, rfl, rfl⟩
  · intro i x rest hx
    cases x <;> simp_all [parseActionsGo, PyValue.isMapping]
  · intro i x rest fp hx
    cases x <;> simp_all [parseScriptActions, PyValue.isMapping]

/-- C10 witness: the non-mapping entry 5 is dropped without an error. -/
theorem nested_nonmapping_dropped_witness :
    parseActionsGo 0 ((PyValue.int 5) :: [logActionData]) = parseActionsGo 1 [logActionData] :=
  nested_nonmapping_dropped.1 0 (.int 5) [logActionData] rfl

/-! ## C1 — rendering failures inside evaluate_condition -/

/-- The string evaluate_condition renders always carries template
markers: either the condition already had them or the wrap added them. -/
theorem wrapCondition_contains (s : String) :
    strContains (wrapCondition s) "\x7b\x7b" = true := by
  unfold wrapCondition
  by_cases h : strContains s "\x7b\x7b"
  · simp [h]
  · simp only [h, Bool.not_false, if_true]
    simp [strContains, String.data_append, listHasSub, listIsPre]

/-- C1 counterexample: the condition `1/0` fails to render — jinja raises
`ZeroDivisionError` while evaluating the wrapped template — and
evaluate_condition re-raises it instead of returning false. -/
theorem evaluate_condition_can_raise :
    render engDivZero {} (wrapCondition "1/0")
      = .error (.otherError "ZeroDivisionError" "division by zero") ∧
    evaluate_condition engDivZero {} "1/0"
      = .error (.otherError "ZeroDivisionError" "division by zero") := ⟨rfl, rfl⟩

/-- C1 (amended): a rendering failure that surfaces as a `ValueError` —
which covers every template syntax error and every undefined-variable
error, the two failure kinds `render` converts — makes evaluate_condition
return false without raising; a rendering failure of any other exception
class propagates out of evaluate_condition. -/
theorem evaluate_condition_suppresses_valueErrors :
    (∀ (eng : JinjaEngine) (c : MacroContext) (s m : String),
      render eng c (wrapCondition s) = .error (.valueError m) →
      evaluate_condition eng c s = .ok false) ∧
    (∀ (eng : JinjaEngine) (c : MacroContext) (s msg : String),
      eng (wrapCondition s) c.variables = .syntaxError msg ∨
        eng (wrapCondition s) c.variables = .undefinedError msg →
      evaluate_condition eng c s = .ok false) := by
  constructor
  · intro eng c s m h
    simp [evaluate_condition, h]
  · intro eng c s msg h
    have hc := wrapCondition_contains s
    cases h with
    | inl h1 =>
      have hm : render eng c (wrapCondition s)
          = .error (.valueError ("Template syntax error: " ++ msg)) := by
        simp [render, hc, h1]
      simp [evaluate_condition, hm]
    | inr h1 =>
      have hm : render eng c (wrapCondition s)
          = .error (.valueError ("Undefined variable: " ++ msg)) := by
        simp [render, hc, h1]
      simp [evaluate_condition, hm]

/-- C1 witness: on an engine for which every template is malformed, a
syntactically broken condition evaluates to false. -/
theorem evaluate_condition_suppresses_valueErrors_witness :
    evaluate_condition engSyntax {} "x ==" = .ok false :=
  evaluate_condition_suppresses_valueErrors.2 engSyntax {} "x =="
    "unexpected end of template" (Or.inl rfl)

/-! ## C3 — recursion depth ceiling -/

/-- C3: once the executor's depth counter has reached MAX_CALL_DEPTH,
`execute` raises the distinctly-worded depth error for every macro and
every parameter mapping — before validating parameters and before running
any action (the guard is uniform in both) — and each child executor's
counter is its parent's plus one, so a chain of subroutine calls never
builds an executor beyond the ceiling; concretely, the self-recursive
`loop` macro run from depth 0 ends in the depth error. -/
theorem recursion_depth_guard :
    (∀ (runList : List MacroAction → MacroContext → ExecRes × MacroContext)
        (ex : MacroExecutor) (m : MacroDef) (params : PyDict),
      MacroExecutor.MAX_CALL_DEPTH ≤ ex.callDepth →
      execute_core runList ex m params = .err (.macroExecutionError
        "Maximum call depth exceeded (possible infinite recursion)" Option.none Option.none)) ∧
    (∀ ex : MacroExecutor, ex.create_child_executor.callDepth = ex.callDepth + 1) ∧
    (MacroExecutor.execute engTrue envLoop 60 {} loopM [] = .err (.macroExecutionError
      "Maximum call depth exceeded (possible infinite recursion)" Option.none Option.none)) := by
  refine ⟨?_, fun ex => rfl, rfl⟩
  intro runList ex m params h
  simp [execute_core, h]

/-- C3 witness: at depth 50 the guard fires no matter the macro. -/
theorem recursion_depth_guard_witness :
    execute_core (fun _ c => (.ok PyValue.none, c)) { callDepth := 50 } loopM []
      = .err (.macroExecutionError "Maximum call depth exceeded (possible infinite recursion)"
          Option.none Option.none) :=
  recursion_depth_guard.1 (fun _ c => (.ok PyValue.none, c)) { callDepth := 50 } loopM []
    (by decide)

/-! ## C6 — coercion of supplied parameter values -/

/-- C6 counterexample: with declared type integer, required false and
default `"zzz"`, validate(None) returns the raw default — neither a value
of the coerced declared type nor an error. -/
theorem validate_returns_uncoerced_default :
    intParamStrDefault.validate PyValue.none = .ok (.str "zzz") ∧
    coercedTypeMatches intParamStrDefault.type (.str "zzz") = false := ⟨rfl, rfl⟩

/-- C6 (amended): for every declaration with one of the five declared
types and every supplied non-None value, validate either returns a value
of the coerced declared type or raises a ValueError naming the parameter
and the expected type; list coercion accepts a native list unchanged and
splits a string on commas, stripping whitespace around each element.
(A None input is instead resolved by the required/default rule, which may
return an uncoerced default.) -/
theorem validate_coerces_supplied_values :
    (∀ (p : MacroParameter) (v : PyValue),
      (p.type = .str "string" ∨ p.type = .str "integer" ∨ p.type = .str "float" ∨
        p.type = .str "boolean" ∨ p.type = .str "list") →
      ¬ v = PyValue.none →
      (∃ r, p.validate v = .ok r ∧ coercedTypeMatches p.type r = true) ∨
      (∃ w, typeWordOf p.type = some w ∧
        p.validate v = .error (.valueError
          ("Parameter '" ++ p.name ++ "' must be " ++ w)))) ∧
    (∀ (p : MacroParameter) (xs : List PyValue), p.type = .str "list" →
      p.validate (.list xs) = .ok (.list xs)) ∧
    (∀ (p : MacroParameter) (s : String), p.type = .str "list" →
      p.validate (.str s)
        = .ok (.list ((pySplitComma s).map (fun part => .str (pyStrip part))))) := by
  refine ⟨?_, ?_, ?_⟩
  · intro p v ht hv
    rcases ht with ht | ht | ht | ht | ht
    · refine Or.inl ⟨.str (pyStr v), ?_, by simp [ht, coercedTypeMatches]⟩
      cases v <;> first
        | exact absurd rfl hv
        | simp [MacroParameter.validate, ht]
    · cases v with
      | none => exact absurd rfl hv
      | bool b =>
        exact Or.inl ⟨.int (if b then 1 else 0),
          by simp [MacroParameter.validate, ht, pyIntExc],
          by simp [ht, coercedTypeMatches]⟩
      | int n =>
        exact Or.inl ⟨.int n, by simp [MacroParameter.validate, ht, pyIntExc],
          by simp [ht, coercedTypeMatches]⟩
      | float q =>
        exact Or.inl ⟨.int (ratTrunc q), by simp [MacroParameter.validate, ht, pyIntExc],
          by simp [ht, coercedTypeMatches]⟩
      | str s =>
        cases hp : pyParseInt s with
        | some n =>
          exact Or.inl ⟨.int n, by simp [MacroParameter.validate, ht, pyIntExc, hp],
            by simp [ht, coercedTypeMatches]⟩
        | none =>
          exact Or.inr ⟨"an integer", by simp [ht, typeWordOf],
            by simp [MacroParameter.validate, ht, pyIntExc, hp]; simp [String.append_assoc]⟩
      | list xs =>
        exact Or.inr ⟨"an integer", by simp [ht, typeWordOf],
          by simp [MacroParameter.validate, ht, pyIntExc]; simp [String.append_assoc]⟩
      | dict xs =>
        exact Or.inr ⟨"an integer", by simp [ht, typeWordOf],
          by simp [MacroParameter.validate, ht, pyIntExc]; simp [String.append_assoc]⟩
    · cases v with
      | none => exact absurd rfl hv
      | bool b =>
        exact Or.inl ⟨.float (if b then 1 else 0),
          by simp [MacroParameter.validate, ht, pyFloatExc],
          by simp [ht, coercedTypeMatches]⟩
      | int n =>
        exact Or.inl ⟨.float (n : Rat), by simp [MacroParameter.validate, ht, pyFloatExc],
          by simp [ht, coercedTypeMatches]⟩
      | float q =>
        exact Or.inl ⟨.float q, by simp [MacroParameter.validate, ht, pyFloatExc],
          by simp [ht, coercedTypeMatches]⟩
      | str s =>
        cases hp : pyParseFloat s with
        | some q =>
          exact Or.inl ⟨.float q, by simp [MacroParameter.validate, ht, pyFloatExc, hp],
            by simp [ht, coercedTypeMatches]⟩
        | none =>
          exact Or.inr ⟨"a float", by simp [ht, typeWordOf],
            by simp [MacroParameter.validate, ht, pyFloatExc, hp]; simp [String.append_assoc]⟩
      | list xs =>
        exact Or.inr ⟨"a float", by simp [ht, typeWordOf],
          by simp [MacroParameter.validate, ht, pyFloatExc]; simp [String.append_assoc]⟩
      | dict xs =>
        exact Or.inr ⟨"a float", by simp [ht, typeWordOf],
          by simp [MacroParameter.validate, ht, pyFloatExc]; simp [String.append_assoc]⟩
    · cases v with
      | none => exact absurd rfl hv
      | bool b =>
        exact Or.inl ⟨.bool b, by simp [MacroParameter.validate, ht],
          by simp [ht, coercedTypeMatches]⟩
      | str s =>
        by_cases h1 : (pyLower s = "true" ∨ pyLower s = "yes" ∨ pyLower s = "1" ∨
            pyLower s = "on")
        · exact Or.inl ⟨.bool true, by simp [MacroParameter.validate, ht, h1],
            by simp [ht, coercedTypeMatches]⟩
        · by_cases h2 : (pyLower s = "false" ∨ pyLower s = "no" ∨ pyLower s = "0" ∨
              pyLower s = "off")
          · exact Or.inl ⟨.bool false, by simp [MacroParameter.validate, ht, h1, h2],
              by simp [ht, coercedTypeMatches]⟩
          · exact Or.inr ⟨"a boolean", by simp [ht, typeWordOf],
              by simp [MacroParameter.validate, ht, h1, h2]; simp [String.append_assoc]⟩
      | int n =>
        exact Or.inr ⟨"a boolean", by simp [ht, typeWordOf],
          by simp [MacroParameter.validate, ht]; simp [String.append_assoc]⟩
      | float q =>
        exact Or.inr ⟨"a boolean", by simp [ht, typeWordOf],
          by simp [MacroParameter.validate, ht]; simp [String.append_assoc]⟩
      | list xs =>
        exact Or.inr ⟨"a boolean", by simp [ht, typeWordOf],
          by simp [MacroParameter.validate, ht]; simp [String.append_assoc]⟩
      | dict xs =>
        exact Or.inr ⟨"a boolean", by simp [ht, typeWordOf],
          by simp [MacroParameter.validate, ht]; simp [String.append_assoc]⟩
    · cases v with
      | none => exact absurd rfl hv
      | list xs =>
        exact Or.inl ⟨.list xs, by simp [MacroParameter.validate, ht],
          by simp [ht, coercedTypeMatches]⟩
      | str s =>
        exact Or.inl ⟨.list ((pySplitComma s).map (fun part => .str (pyStrip part))),
          by simp [MacroParameter.validate, ht], by simp [ht, coercedTypeMatches]⟩
      | bool b =>
        exact Or.inr ⟨"a list", by simp [ht, typeWordOf],
          by simp [MacroParameter.validate, ht]; simp [String.append_assoc]⟩
      | int n =>
        exact Or.inr ⟨"a list", by simp [ht, typeWordOf],
          by simp [MacroParameter.validate, ht]; simp [String.append_assoc]⟩
      | float q =>
        exact Or.inr ⟨"a list", by simp [ht, typeWordOf],
          by simp [MacroParameter.validate, ht]; simp [String.append_assoc]⟩
      | dict xs =>
        exact Or.inr ⟨"a list", by simp [ht, typeWordOf],
          by simp [MacroParameter.validate, ht]; simp [String.append_assoc]⟩
  · intro p xs ht
    simp [MacroParameter.validate, ht]
  · intro p s ht
    simp [MacroParameter.validate, ht]

/-- C6 witness: an integer-typed parameter coerces the string "7". -/
theorem validate_coerces_supplied_values_witness :
    (∃ r, ({ name := "n", type := .str "integer" } : MacroParameter).validate (.str "7") = .ok r ∧
      coercedTypeMatches ({ name := "n", type := .str "integer" } : MacroParameter).type r
        = true) ∨
    (∃ w, typeWordOf ({ name := "n", type := .str "integer" } : MacroParameter).type = some w ∧
      ({ name := "n", type := .str "integer" } : MacroParameter).validate (.str "7")
        = .error (.valueError ("Parameter '" ++
          ({ name := "n", type := .str "integer" } : MacroParameter).name
            ++ "' must be " ++ w))) :=
  validate_coerces_supplied_values.1 { name := "n", type := .str "integer" } (.str "7")
    (Or.inr (Or.inl rfl)) (fun h => PyValue.noConfusion h)

/-! ## C4 — while-loop ceiling -/

/-- Under an always-true condition and an always-succeeding body, the
while driver reaches the ceiling error whenever its loop fuel exceeds the
iterations the ceiling still allows. -/
theorem whileLoop_ceiling (evalC : MacroContext → Except PyErr Bool)
    (runBody : MacroContext → ExecRes × MacroContext) (maxIter : Int)
    (hc : ∀ c, evalC c = .ok true)
    (hb : ∀ c, ∃ v c2, runBody c = (.ok v, c2)) :
    ∀ (remaining : Nat) (iteration : Int) (ctx : MacroContext),
      (maxIter - iteration).toNat < remaining →
      ∃ cf, whileLoop evalC runBody maxIter remaining iteration ctx
        = (.err (.macroExecutionError
            ("while loop exceeded max_iterations (" ++ toString maxIter ++ ")")
            Option.none Option.none), cf) := by
  intro remaining
  induction remaining with
  | zero => intro iteration ctx h; omega
  | succ r ih =>
    intro iteration ctx h
    by_cases hle : maxIter ≤ iteration
    · exact ⟨ctx, by rw [whileLoop]; simp [hc, hle]⟩
    · obtain ⟨v, c2, hbody⟩ := hb ctx
      obtain ⟨cf, hrec⟩ := ih (iteration + 1) c2 (by omega)
      exact ⟨cf, by rw [whileLoop]; simp [hc, hle, hbody, hrec]⟩

/-- C4: for a `while` action whose condition always evaluates true and
whose (non-empty) body always completes normally, the handler raises the
ceiling-exceeded execution error carrying the configured
`max_iterations`; and the condition is re-evaluated before every pass —
in particular, when it evaluates false the driver stops at once and
returns without touching the context. -/
theorem while_ceiling_error :
    (∀ (eng : JinjaEngine)
        (runList : List MacroAction → MacroContext → ExecRes × MacroContext)
        (args : PyDict) (ctx : MacroContext) (cond : String)
        (parsed : List MacroAction) (M : Int),
      dictGet args "condition" = some (.str cond) →
      (∀ c, evaluate_condition eng c cond = .ok true) →
      (getListArg args "actions").isEmpty = false →
      _parse_actions (getListArg args "actions") = .ok parsed →
      pyIntExc ((dictGet args "max_iterations").getD (.int 1000)) = .ok M →
      (∀ c, ∃ v c2, runList parsed c = (.ok v, c2)) →
      ∃ cf, action_while eng runList args ctx
        = (.err (.macroExecutionError
            ("while loop exceeded max_iterations (" ++ toString M ++ ")")
            Option.none Option.none), cf)) ∧
    (∀ (evalC : MacroContext → Except PyErr Bool)
        (runBody : MacroContext → ExecRes × MacroContext)
        (M : Int) (r : Nat) (it : Int) (c : MacroContext),
      evalC c = .ok false →
      whileLoop evalC runBody M (r + 1) it c = (.ok PyValue.none, c)) := by
  constructor
  · intro eng runList args ctx cond parsed M hcnd hall hne hp hm hbody
    obtain ⟨cf, hcf⟩ := whileLoop_ceiling
      (fun c => evalConditionValue eng c (.str cond)) (runList parsed) M
      (fun c => hall c) hbody (M.toNat + 1) 0 ctx (by omega)
    refine ⟨cf, ?_⟩
    simp only [action_while, hcnd, hm, Option.getD_some, hne, Bool.not_false, if_true, hp]
    exact hcf
  · intro evalC runBody M r it c h
    rw [whileLoop]
    simp [h]

/-- C4 witness: condition `true`, a `log` body and ceiling 2 end in the
ceiling error. -/
theorem while_ceiling_error_witness :
    ∃ cf, action_while engTrue runList5 argsWhile2 {}
      = (.err (.macroExecutionError "while loop exceeded max_iterations (2)"
          Option.none Option.none), cf) :=
  while_ceiling_error.1 engTrue runList5 argsWhile2 {} "true"
    [{ action := .str "log", args := [] }] 2 rfl (fun _ => rfl) rfl rfl rfl
    (fun c => ⟨PyValue.none, c, rfl⟩)

/-! ## C9 — subroutine isolation -/

/-- The validated-parameter dict holds exactly the names accumulated so
far plus the declared ones still to process. -/
theorem validateParamsGo_dom (params : PyDict) :
    ∀ (ps : List MacroParameter) (acc vp : PyDict),
      validateParamsGo params ps acc = .ok vp →
      ∀ n, dictHas vp n = true ↔
        (dictHas acc n = true ∨ n ∈ ps.map MacroParameter.name) := by
  intro ps
  induction ps with
  | nil =>
    intro acc vp h n
    simp only [validateParamsGo] at h
    cases h
    simp
  | cons p rest ih =>
    intro acc vp h n
    simp only [validateParamsGo] at h
    cases hv : p.validate ((dictGet params p.name).getD PyValue.none) with
    | error e => rw [hv] at h; exact absurd h (by simp)
    | ok v =>
      rw [hv] at h
      rw [ih (dictSet acc p.name v) vp h n, dictHas_dictSet]
      by_cases hn : n = p.name <;> simp [hn]

/-- C9: the callee of a `call` runs isolated from the caller: the handler
neither reads nor writes the caller's context (its outcome is the same
for any two caller contexts, and the context it returns is the caller's
own, unchanged); the validated parameter dict the callee starts from
contains exactly the names the callee declares (undeclared supplied
parameters are dropped); and the callee's fresh context has an empty
runtime layer and sees only its validated parameters layered over its own
default variables. -/
theorem call_isolation :
    (∀ (execM : MacroExecutor → MacroDef → PyDict → ExecRes) (env : MacroEnv)
        (ex : MacroExecutor) (args : PyDict) (ctx ctx2 : MacroContext),
      (action_call execM env ex args ctx).1 = (action_call execM env ex args ctx2).1) ∧
    (∀ (execM : MacroExecutor → MacroDef → PyDict → ExecRes) (env : MacroEnv)
        (ex : MacroExecutor) (args : PyDict) (ctx : MacroContext),
      (action_call execM env ex args ctx).2 = ctx) ∧
    (∀ (m : MacroDef) (p vp : PyDict) (n : String),
      m.validate_params p = .ok vp →
      (dictHas vp n = true ↔ n ∈ m.parameters.map MacroParameter.name)) ∧
    (∀ (vp vars : PyDict),
      (MacroContext.init vp vars).runtime_vars = [] ∧
      (MacroContext.init vp vars).variables = dictUpdate (dictUpdate [] vars) vp) := by
  refine ⟨?_, ?_, ?_, fun vp vars => ⟨rfl, rfl⟩⟩
  · intro execM env ex args ctx ctx2
    simp only [action_call]
    (repeat' split) <;> rfl
  · intro execM env ex args ctx
    simp only [action_call]
    (repeat' split) <;> rfl
  · intro m p vp n h
    have := validateParamsGo_dom p m.parameters [] vp h n
    simpa [dictHas, dictGet] using this

/-- C9 witness: a caller-supplied parameter the callee does not declare is
absent from the validated dict. -/
theorem call_isolation_witness :
    dictHas [("x", .str "1")] "junk" = true ↔
      "junk" ∈ calleeM.parameters.map MacroParameter.name :=
  call_isolation.2.2.1 calleeM [("x", .int 1), ("junk", .int 2)] [("x", .str "1")] "junk" rfl

/-! ## C2 — try/catch/finally -/

/-- C2 counterexample: with a body and a catch list that both fail, the
catch's error propagates and the finally list — which would have stored
42 under `_return_value` — never runs; with a succeeding catch the same
finally does run.  So "finally always executes afterward, including when
a catch list runs" fails on the code. -/
theorem try_finally_skipped :
    (action_try runList5 argsTryCatchFails {}
      = (.err (.macroExecutionError "catchboom" Option.none Option.none),
         { runtime_vars := [("error", .str "boom")] })) ∧
    (({ runtime_vars := [("error", .str "boom")] } : MacroContext).get "_return_value"
        PyValue.none = PyValue.none) ∧
    (action_try runList5 argsTryCatchOk {}
      = (.ok PyValue.none,
         { runtime_vars := [("error", .str "boom"), ("_return_value", .int 42)] })) :=
  ⟨rfl, rfl, rfl⟩

/-- C2 (amended): the try handler's behaviour, case by case.  (1) When
the (non-empty) body succeeds, the finally list runs and the body's
result returns.  (2) When the body raises a non-loop-control error,
`str(e)` is bound into the named error variable, a supplied catch list
runs on that context instead of propagating, and — when the catch list
completes — finally runs and the catch's result returns.  (3) With no
catch list, finally runs and then a wrapped error built from the error
variable's current value is re-raised.  (4) A loop-control signal from
the body re-raises immediately, skipping finally.  (5) If the catch list
itself raises, its exception propagates immediately and finally is
skipped. -/
theorem try_semantics :
    (∀ (runList : List MacroAction → MacroContext → ExecRes × MacroContext)
        (args : PyDict) (ctx : MacroContext) (bodyActs : List MacroAction)
        (r fv : PyValue) (c1 c2 : MacroContext),
      (getListArg args "actions").isEmpty = false →
      _parse_actions (getListArg args "actions") = .ok bodyActs →
      runList bodyActs ctx = (.ok r, c1) →
      run_finally runList (getListArg args "finally") c1 = (.ok fv, c2) →
      action_try runList args ctx = (.ok r, c2)) ∧
    (∀ (runList : List MacroAction → MacroContext → ExecRes × MacroContext)
        (args : PyDict) (ctx : MacroContext) (bodyActs catchActs : List MacroAction)
        (e : PyErr) (rc fv : PyValue) (c1 c2 c3 : MacroContext),
      (getListArg args "actions").isEmpty = false →
      _parse_actions (getListArg args "actions") = .ok bodyActs →
      runList bodyActs ctx = (.err e, c1) →
      e ≠ .loopBreak → e ≠ .loopContinue →
      (getListArg args "catch").isEmpty = false →
      _parse_actions (getListArg args "catch") = .ok catchActs →
      runList catchActs
          (c1.set (varName ((dictGet args "error_as").getD (.str "error")))
            (.str e.toStr)) = (.ok rc, c2) →
      run_finally runList (getListArg args "finally") c2 = (.ok fv, c3) →
      action_try runList args ctx = (.ok rc, c3)) ∧
    (∀ (runList : List MacroAction → MacroContext → ExecRes × MacroContext)
        (args : PyDict) (ctx : MacroContext) (bodyActs : List MacroAction)
        (e : PyErr) (fv : PyValue) (c1 c2 : MacroContext),
      (getListArg args "actions").isEmpty = false →
      _parse_actions (getListArg args "actions") = .ok bodyActs →
      runList bodyActs ctx = (.err e, c1) →
      e ≠ .loopBreak → e ≠ .loopContinue →
      (getListArg args "catch").isEmpty = true →
      run_finally runList (getListArg args "finally")
          (c1.set (varName ((dictGet args "error_as").getD (.str "error")))
            (.str e.toStr)) = (.ok fv, c2) →
      action_try runList args ctx
        = (.err (.macroExecutionError
            (pyStr (c2.get (varName ((dictGet args "error_as").getD (.str "error")))
              (.str "Unknown error")))
            Option.none Option.none), c2)) ∧
    (∀ (runList : List MacroAction → MacroContext → ExecRes × MacroContext)
        (args : PyDict) (ctx : MacroContext) (bodyActs : List MacroAction)
        (c1 : MacroContext),
      (getListArg args "actions").isEmpty = false →
      _parse_actions (getListArg args "actions") = .ok bodyActs →
      (runList bodyActs ctx = (.err .loopBreak, c1) →
        action_try runList args ctx = (.err .loopBreak, c1)) ∧
      (runList bodyActs ctx = (.err .loopContinue, c1) →
        action_try runList args ctx = (.err .loopContinue, c1))) ∧
    (∀ (runList : List MacroAction → MacroContext → ExecRes × MacroContext)
        (args : PyDict) (ctx : MacroContext) (bodyActs catchActs : List MacroAction)
        (e e2 : PyErr) (c1 c2 : MacroContext),
      (getListArg args "actions").isEmpty = false →
      _parse_actions (getListArg args "actions") = .ok bodyActs →
      runList bodyActs ctx = (.err e, c1) →
      e ≠ .loopBreak → e ≠ .loopContinue →
      (getListArg args "catch").isEmpty = false →
      _parse_actions (getListArg args "catch") = .ok catchActs →
      runList catchActs
          (c1.set (varName ((dictGet args "error_as").getD (.str "error")))
            (.str e.toStr)) = (.err e2, c2) →
      action_try runList args ctx = (.err e2, c2)) := by
  refine ⟨?_, ?_, ?_, ?_, ?_⟩
  · intro runList args ctx bodyActs r fv c1 c2 hne hp hb hf
    simp only [action_try, hne, Bool.not_false, if_true, hp, hb, hf]
  · intro runList args ctx bodyActs catchActs e rc fv c1 c2 c3 hne hp hb heb hec hcn hcp hcr hf
    cases e <;> simp_all [action_try]
  · intro runList args ctx bodyActs e fv c1 c2 hne hp hb heb hec hce hf
    cases e <;> simp_all [action_try]
  · intro runList args ctx bodyActs c1 hne hp
    constructor <;> intro hb <;> simp only [action_try, hne, Bool.not_false, if_true, hp, hb]
  · intro runList args ctx bodyActs catchActs e e2 c1 c2 hne hp hb heb hec hcn hcp hcr
    cases e <;> simp_all [action_try]

/-- C2 witness (scenario C): a failing body with a `log` catch list does
not propagate; the error variable is populated and the handler returns
normally. -/
theorem try_semantics_witness :
    action_try runList5 argsTryScenC {}
      = (.ok PyValue.none, { runtime_vars := [("error", .str "boom")] }) :=
  try_semantics.2.1 runList5 argsTryScenC {}
    [{ action := .str "fail", args := [("message", .str "boom")] }]
    [{ action := .str "log", args := [] }]
    (.macroExecutionError "boom" Option.none Option.none)
    PyValue.none PyValue.none
    {} { runtime_vars := [("error", .str "boom")] } { runtime_vars := [("error", .str "boom")] }
    rfl rfl rfl (fun h => PyErr.noConfusion h) (fun h => PyErr.noConfusion h)
    rfl rfl rfl rfl

end Automeister
